import Mathlib

/-!
Shallow embedding of the own-ref crate (a zero-allocation ownership-transfer
abstraction). Destructor side effects are traced as lists of values: running
the destructor of a stored value v appends v to the trace, so that
exactly-once-destruction claims become statements about event lists.
The boolean needsDrop models the compile-time predicate
core::mem::needs_drop::<T>() of the held type.
-/

namespace OwnRefModel

/-- Type-level drop-mode enum of src/pin.rs (module DropFlags, with the two
empty types No and Yes). The runtime tag comparison in the drop glue of
OwnRef compares TypeId values of these two types; decidable equality on this
enum models that comparison. -/
inductive DropFlags where
  | No : DropFlags
  | Yes : DropFlags
deriving DecidableEq

/-- Plain storage slot (struct Slot of src/slot.rs, a newtype around
MaybeUninit): inert bytes for one value. none models uninitialized bytes,
some v a value stored in the bytes. The slot itself has no drop glue. -/
abbrev Slot (α : Type) : Type := Option α

/-- Slot.VACANT, also the result of the slot() constructor (src/slot.rs):
uninitialized storage. -/
def Slot.VACANT {α : Type} : Slot α := none

/-- Slot.holding, via MaybeUninitExt.holding (src/slot.rs lines 197 to 229):
MaybeUninit.write stores the value into the slot bytes, overwriting whatever
bytes were there without reading or dropping them, and the resulting
reference is passed to OwnRef.from_raw with DropFlags.No. The returned slot
state is the backing storage the handle points to. The own_ref macro
(src/own.rs) performs the same storage write into a temporary slot and
builds the same DropFlags.No handle, so this definition covers both
constructors. -/
def Slot.holding {α : Type} (_slot : Slot α) (value : α) : Slot α := some value

/-- Drop glue of OwnRef (impl Drop for OwnRef, src/own.rs lines 115 to 149)
instantiated at DropFlags.No, acting on the backing slot the handle points
to. When needsDrop holds, the runtime tag comparison
(decide (DropFlags.No = DropFlags.Yes)) is false so no flag is written, and
drop_in_place runs the destructor of the pointee; the slot bytes are left in
place, since drop_in_place does not deinitialize storage. When needsDrop is
false the whole body is skipped. Returns the slot state after the drop and
the destructor events. -/
def OwnRef.dropNo {α : Type} (needsDrop : Bool) (slot : Slot α) :
    Slot α × List α :=
  if needsDrop then
    if decide (DropFlags.No = DropFlags.Yes) then
      (slot, slot.toList)
    else
      (slot, slot.toList)
  else
    (slot, [])

/-- OwnRef.deref_move (src/own.rs lines 151 to 164): the handle is wrapped in
ManuallyDrop.new, disarming its drop glue, and the value is moved out of the
storage with a raw pointer read. Returns the value read out of the slot
bytes (none only for the impossible uninitialized case); the slot bytes are
unchanged and the handle contributes no destructor event. -/
def OwnRef.deref_move {α : Type} (slot : Slot α) : Option α := slot

/-- OwnRef.into_inner (src/own/impls.rs lines 7 to 17): identical body to
OwnRef.deref_move (ManuallyDrop.new disarms the handle, then a raw pointer
read moves the value out). -/
def OwnRef.into_inner {α : Type} (slot : Slot α) : Option α := slot

/-- Dropping an owned value of the held type outside of any handle (plain
language drop of the extracted value): one destructor event when the type
has drop glue. -/
def dropValue {α : Type} (needsDrop : Bool) (x : α) : List α :=
  if needsDrop then [x] else []

/-- The pinned storage cell ManualOption of src/pin.rs lines 304 to 315: a
present flag is_some plus MaybeUninit bytes for the value (none models
uninitialized bytes). -/
structure ManualOption (α : Type) where
  is_some : Bool
  value : Option α
deriving DecidableEq

/-- ManualOption.None (src/pin.rs lines 364 to 371), also the result of
pin.slot(): flag clear, bytes uninitialized. -/
def ManualOption.None {α : Type} : ManualOption α :=
  { is_some := false, value := Option.none }

/-- The pin.slot() constructor (src/pin.rs lines 521 to 525), which the
pinned slot macro immediately pins in place. -/
def pinSlot {α : Type} : ManualOption α := ManualOption.None

/-- Drop glue of the cell itself (impl Drop for ManualOption, src/pin.rs
lines 317 to 327): when the held type has drop glue and the flag is still
set, drop_in_place the value; otherwise do nothing. Returns the destructor
events of destroying the cell. -/
def ManualOption.dropGlue {α : Type} (needsDrop : Bool) (s : ManualOption α) :
    List α :=
  if needsDrop && s.is_some then s.value.toList else []

/-- ManualOption.holding (src/pin.rs lines 416 to 471). The body first runs
self.set(ManualOption.None): the assignment drops the previous contents of
the cell in place (running the ManualOption drop glue on the old state),
then this.value.write(value) stores the new value and this.is_some is set to
true; finally OwnRef.from_raw with DropFlags.Yes wraps a pointer to the
value field (with provenance over the whole cell) into the pinned handle.
Returns the cell state after the call and the destructor events of the
reset. -/
def ManualOption.holding {α : Type} (needsDrop : Bool) (s : ManualOption α)
    (value : α) : ManualOption α × List α :=
  let stale : List α := ManualOption.dropGlue needsDrop s
  let s1 : ManualOption α := ManualOption.None
  let s2 : ManualOption α := { s1 with value := some value }
  let s3 : ManualOption α := { s2 with is_some := true }
  (s3, stale)

/-- Drop glue of OwnRef (impl Drop for OwnRef, src/own.rs lines 115 to 149)
instantiated at DropFlags.Yes, acting on the ManualOption cell whose value
field the handle points to. When needsDrop holds, the runtime tag comparison
(decide (DropFlags.Yes = DropFlags.Yes)) is true, so false is written
through the pointer to the is_some field (located one alignment unit below
the value field), and then drop_in_place runs the destructor of the value;
the value bytes are left in place. When needsDrop is false the whole body,
including the flag write, is skipped. -/
def OwnRef.dropYes {α : Type} (needsDrop : Bool) (cell : ManualOption α) :
    ManualOption α × List α :=
  if needsDrop then
    if decide (DropFlags.Yes = DropFlags.Yes) then
      ({ cell with is_some := false }, cell.value.toList)
    else
      (cell, cell.value.toList)
  else
    (cell, [])

/-- Scenario of claim C1, drop path: fill a vacant slot with v, then drop the
returned handle. The trace of destructor events. -/
def slotFillDropEvents {α : Type} (v : α) : List α :=
  (OwnRef.dropNo true (Slot.holding Slot.VACANT v)).2

/-- Scenario of claim C1, deref_move path: fill a vacant slot with v, extract
the value with deref_move (consuming and disarming the handle), and later
drop the extracted value separately. The trace of destructor events. -/
def slotFillDerefMoveEvents {α : Type} (v : α) : List α :=
  let s : Slot α := Slot.holding Slot.VACANT v
  match OwnRef.deref_move s with
  | some x => dropValue true x
  | none => []

/-- Scenario of claim C1, into_inner path: like the deref_move path but
through OwnRef.into_inner. -/
def slotFillIntoInnerEvents {α : Type} (v : α) : List α :=
  let s : Slot α := Slot.holding Slot.VACANT v
  match OwnRef.into_inner s with
  | some x => dropValue true x
  | none => []

/-- Scenario of claim C2, leak path: pin a vacant cell, fill it with v
obtaining the pinned handle, leak the handle with mem::forget (no events),
then destroy the cell. The trace of destructor events. -/
def pinFillLeakDropCellEvents {α : Type} (v : α) : List α :=
  let r1 := ManualOption.holding true pinSlot v
  r1.2 ++ ManualOption.dropGlue true r1.1

/-- Scenario of claim C2, normal path: pin a vacant cell, fill it with v,
drop the pinned handle normally, then destroy the cell. The trace of
destructor events. -/
def pinFillDropHandleDropCellEvents {α : Type} (v : α) : List α :=
  let r1 := ManualOption.holding true pinSlot v
  let r2 := OwnRef.dropYes true r1.1
  r1.2 ++ r2.2 ++ ManualOption.dropGlue true r2.1

/-- Scenario of claim C7, drop path: fill a vacant slot with v1, drop the
handle, refill the same slot with v2, drop the second handle. The pair of
event traces of the first and of the second consumption. -/
def slotReuseDropDrop {α : Type} (v1 v2 : α) : List α × List α :=
  let s1 : Slot α := Slot.holding Slot.VACANT v1
  let r1 := OwnRef.dropNo true s1
  let s2 : Slot α := Slot.holding r1.1 v2
  let r2 := OwnRef.dropNo true s2
  (r1.2, r2.2)

/-- Scenario of claim C7, extract path: fill a vacant slot with v1, consume
the handle by extracting the value (to be dropped separately by the caller),
refill the same slot with v2, drop the second handle. The pair of event
traces of the first and of the second consumption. -/
def slotReuseExtractDrop {α : Type} (v1 v2 : α) : List α × List α :=
  let s1 : Slot α := Slot.holding Slot.VACANT v1
  let e1 : List α :=
    match OwnRef.into_inner s1 with
    | some x => dropValue true x
    | none => []
  let s2 : Slot α := Slot.holding s1 v2
  let r2 := OwnRef.dropNo true s2
  (e1, r2.2)

/-- Scenario of claims C9 and C10: pin a vacant cell, fill it with v1, leak
the pinned handle with mem::forget (the flag stays set), then invoke holding
again with v2 on the same cell. Returns the final cell state and the
destructor events of the second holding call. -/
def pinRefillAfterLeak {α : Type} (v1 v2 : α) : ManualOption α × List α :=
  let r1 := ManualOption.holding true pinSlot v1
  ManualOption.holding true r1.1 v2

/-- Erased handle over a dynamic interface (OwnRef over dyn Any): the runtime
TypeId of the pointee (an element of the index type), the address, and the
pointee value of the dynamic type. The index ι and the family El form the
universe of candidate concrete types. -/
structure DynOwnRef (ι : Type) (El : ι → Type) where
  tyId : ι
  addr : Nat
  value : El tyId

/-- Concrete-type handle (OwnRef over a sized T of the universe): address and
pointee. -/
structure COwnRef (ι : Type) (El : ι → Type) (t : ι) where
  addr : Nat
  value : El t

/-- Widening of a concrete handle to the erased dyn Any interface: the unsize
macro (src/own.rs lines 521 to 532) calls OwnRef.into_raw, widens the raw
pointer by an unsized coercion, and calls OwnRef.from_raw back; address and
pointee are unchanged, and the wide pointer now carries the runtime TypeId
of the erased type. -/
def COwnRef.unsizeAny {ι : Type} {El : ι → Type} {t : ι}
    (h : COwnRef ι El t) : DynOwnRef ι El :=
  { tyId := t, addr := h.addr, value := h.value }

/-- OwnRef.downcast (src/traits/any.rs lines 39 to 56): compare the runtime
TypeId of the pointee with the TypeId of the candidate type T; on mismatch
return Err carrying self unchanged; on match, OwnRef.into_raw then
OwnRef.from_raw reinterpret the same address at the concrete type. The four
Send and Sync marker combinations expand to this same body. The function is
total: there is no panicking path. -/
def DynOwnRef.downcast {ι : Type} [DecidableEq ι] {El : ι → Type}
    (h : DynOwnRef ι El) (T : ι) :
    Except (DynOwnRef ι El) (COwnRef ι El T) :=
  if he : h.tyId = T then
    Except.ok { addr := h.addr, value := he ▸ h.value }
  else
    Except.error h

/-- Extraction through OwnRef.into_inner on a concrete downcast result: the
pointee value. -/
def COwnRef.extract {ι : Type} {El : ι → Type} {t : ι}
    (h : COwnRef ι El t) : El t := h.value

/-- Concrete two-type universe used to instantiate the downcast claims at
explicit inputs: a numeric type and a string type with distinct TypeIds. -/
inductive RTy where
  | rI32 : RTy
  | rString : RTy
deriving DecidableEq

/-- Interpretation of the concrete universe. -/
def RTy.El : RTy → Type
  | RTy.rI32 => Int
  | RTy.rString => String

/-- Concrete erased handle holding a string, used as explicit input for the
downcast claims. -/
def anyHandleString : DynOwnRef RTy RTy.El :=
  { tyId := RTy.rString, addr := 64, value := "hello" }

/-- Move-only closure: its body consumes the closure (captures included,
exactly once per call, as the language guarantees for a by-value call) and
returns the result together with the trace of its side effects; dropEvents
is the trace of dropping the closure without calling it (the capture
destructors). -/
structure Closure (Args : Type) (Ret : Type) where
  body : Args → Ret × List Nat
  dropEvents : List Nat

/-- Direct concrete call (the blanket FnOwn impl for closures, src/traits/
fn_own.rs lines 149 to 161): call_ownref(self, args) invokes the closure on
the arguments, consuming it. -/
def Closure.call_ownref {Args Ret : Type} (f : Closure Args Ret)
    (args : Args) : Ret × List Nat :=
  f.body args

/-- Handle over an erased callable (OwnRef over dyn FnOwn): the armed bit
records whether the drop glue of the handle is still active. -/
structure FnHandle (Args : Type) (Ret : Type) where
  armed : Bool
  f : Closure Args Ret

/-- Drop glue of a still-armed handle over a closure: drop_in_place runs the
capture destructors of the closure without calling it. A disarmed handle
contributes nothing. -/
def FnHandle.dropGlue {Args Ret : Type} (h : FnHandle Args Ret) : List Nat :=
  if h.armed then h.f.dropEvents else []

/-- The erased dispatch path (impl FnOwn for OwnRef, src/traits/fn_own.rs
lines 179 to 195, through the unchecked dyn_call_ownref of lines 98 to 111):
ManuallyDrop.new(self) disarms the handle drop glue, the closure is read out
of its backing storage by value (the raw pointer read that is the moral
ManuallyDrop.take), the concrete call_ownref runs it on the arguments, and
at scope end the drop glue of the now-disarmed wrapper runs (contributing
nothing). -/
def FnHandle.call_ownref {Args Ret : Type} (h : FnHandle Args Ret)
    (args : Args) : Ret × List Nat :=
  let md : FnHandle Args Ret := { h with armed := false }
  let fMoved : Closure Args Ret := md.f
  let res := fMoved.call_ownref args
  (res.1, res.2 ++ md.dropGlue)

/-- Arity 0 entry call_ownref_0 (generated by the call_ownref_N macro,
src/traits/fn_own.rs lines 52 to 75): tuple the arguments (here the empty
tuple) and funnel into the canonical call_ownref. -/
def Closure.call_ownref_0 {Ret : Type} (f : Closure Unit Ret) :
    Ret × List Nat :=
  f.call_ownref ()

/-- Arity 1 entry call_ownref_1 on a concrete closure. -/
def Closure.call_ownref_1 {A Ret : Type} (f : Closure A Ret) (a : A) :
    Ret × List Nat :=
  f.call_ownref a

/-- Arity 2 entry call_ownref_2 on a concrete closure. -/
def Closure.call_ownref_2 {A B Ret : Type} (f : Closure (A × B) Ret)
    (a : A) (b : B) : Ret × List Nat :=
  f.call_ownref (a, b)

/-- Arity 11 entry call_ownref_11 (the arity bound of src/arities.rs) on a
concrete closure. -/
def Closure.call_ownref_11
    {A1 A2 A3 A4 A5 A6 A7 A8 A9 A10 A11 Ret : Type}
    (f : Closure (A1 × A2 × A3 × A4 × A5 × A6 × A7 × A8 × A9 × A10 × A11) Ret)
    (a1 : A1) (a2 : A2) (a3 : A3) (a4 : A4) (a5 : A5) (a6 : A6) (a7 : A7)
    (a8 : A8) (a9 : A9) (a10 : A10) (a11 : A11) : Ret × List Nat :=
  f.call_ownref (a1, a2, a3, a4, a5, a6, a7, a8, a9, a10, a11)

/-- Arity 0 entry through the erased handle. -/
def FnHandle.call_ownref_0 {Ret : Type} (h : FnHandle Unit Ret) :
    Ret × List Nat :=
  h.call_ownref ()

/-- Arity 1 entry through the erased handle. -/
def FnHandle.call_ownref_1 {A Ret : Type} (h : FnHandle A Ret) (a : A) :
    Ret × List Nat :=
  h.call_ownref a

/-- Arity 2 entry through the erased handle. -/
def FnHandle.call_ownref_2 {A B Ret : Type} (h : FnHandle (A × B) Ret)
    (a : A) (b : B) : Ret × List Nat :=
  h.call_ownref (a, b)

/-- Arity 11 entry through the erased handle. -/
def FnHandle.call_ownref_11
    {A1 A2 A3 A4 A5 A6 A7 A8 A9 A10 A11 Ret : Type}
    (h : FnHandle (A1 × A2 × A3 × A4 × A5 × A6 × A7 × A8 × A9 × A10 × A11) Ret)
    (a1 : A1) (a2 : A2) (a3 : A3) (a4 : A4) (a5 : A5) (a6 : A6) (a7 : A7)
    (a8 : A8) (a9 : A9) (a10 : A10) (a11 : A11) : Ret × List Nat :=
  h.call_ownref (a1, a2, a3, a4, a5, a6, a7, a8, a9, a10, a11)

/-- TypeId of the type DropFlags.Yes, for the drop-flag check of
OwnRef.from_raw. TypeIds are modeled as naturals; the two inhabitants of the
DropFlags module receive distinct ids and every other candidate type some
other id. -/
def tidDropFlagsYes : Nat := 0

/-- TypeId of the type DropFlags.No. -/
def tidDropFlagsNo : Nat := 1

/-- OwnRef.from_raw (src/own.rs lines 428 to 464): the body first matches on
the TypeId of the drop-mode parameter D: the TypeId of DropFlags.Yes passes,
the TypeId of DropFlags.No passes, any other instantiation panics (modeled
as none); then the handle is built around the raw pointer unchanged (the
pointer is modeled by its address). -/
def OwnRef.from_raw (dTid : Nat) (ptr : Nat) : Option Nat :=
  if dTid = tidDropFlagsYes then some ptr
  else if dTid = tidDropFlagsNo then some ptr
  else none

/-- Claim C1: for every value v of a type with an observable destructor
effect, filling a slot with v and dropping the returned handle runs the
destructor of v exactly once; extracting the value instead through
deref_move or into_inner and later dropping the extracted value separately
also runs it exactly once — the full event trace is exactly [v] in all three
scenarios, never empty and never with a repetition. -/
theorem exactly_once_destruction (α : Type) (v : α) :
    slotFillDropEvents v = [v]
    ∧ slotFillDerefMoveEvents v = [v]
    ∧ slotFillIntoInnerEvents v = [v] :=
  ⟨rfl, rfl, rfl⟩

/-- Claim C2: for a pinned cell holding a value v with an observable
destructor effect, leaking the pinned handle and then destroying the cell
runs the destructor of v exactly once, precisely at cell destruction;
dropping the handle normally first makes the later cell destruction
contribute no additional destructor run — in both scenarios the total trace
is exactly [v]. -/
theorem pin_leak_safety (α : Type) (v : α) :
    pinFillLeakDropCellEvents v = [v]
    ∧ ManualOption.dropGlue true ((ManualOption.holding true pinSlot v).1) = [v]
    ∧ pinFillDropHandleDropCellEvents v = [v]
    ∧ ManualOption.dropGlue true
        ((OwnRef.dropYes true ((ManualOption.holding true pinSlot v).1)).1) = [] :=
  ⟨rfl, rfl, rfl, rfl⟩

/-- Claim C3, counterexample: for a held type without drop glue (modeled by
needsDrop false, such as i32), dropping the drop-flagged handle obtained
from ManualOption.holding does not set is_some to false — the flag stays
set, refuting the claim that for every type T the handle drop clears the
present flag. -/
theorem flagged_drop_no_glue_cex :
    ¬ ((OwnRef.dropYes false
        ((ManualOption.holding false pinSlot (0 : Int)).1)).1.is_some = false) := by
  decide

/-- Claim C3, amended: when the drop-flagged handle obtained from
ManualOption.holding is dropped and the held type has drop glue, the present
flag is cleared (is_some set to false) before the destructor of the value
runs, and the cell drop glue is afterwards a no-op; when the held type has
no drop glue, the handle drop does nothing at all (the flag stays set), and
the cell drop glue is a no-op in that case too. -/
theorem flagged_drop_clears_flag_before_destructor (α : Type) (v : α) :
    ((OwnRef.dropYes true ((ManualOption.holding true pinSlot v).1)).1.is_some
        = false
      ∧ (OwnRef.dropYes true ((ManualOption.holding true pinSlot v).1)).2 = [v]
      ∧ ManualOption.dropGlue true
          ((OwnRef.dropYes true ((ManualOption.holding true pinSlot v).1)).1)
          = [])
    ∧ ((OwnRef.dropYes false ((ManualOption.holding false pinSlot v).1)).1
        = (ManualOption.holding false pinSlot v).1
      ∧ (OwnRef.dropYes false ((ManualOption.holding false pinSlot v).1)).2 = []
      ∧ ManualOption.dropGlue false
          ((OwnRef.dropYes false ((ManualOption.holding false pinSlot v).1)).1)
          = []) :=
  ⟨⟨rfl, rfl, rfl⟩, rfl, rfl, rfl⟩

/-- Claim C4: downcasting an erased handle to a candidate type whose TypeId
differs from the dynamic type of the pointee returns the Err variant
carrying the original handle completely unchanged (same address, same value,
hence still usable and destructible exactly once), and the operation is
total (no panicking path exists in the definition); when the TypeIds match
it returns the Ok variant, at the same address. -/
theorem downcast_mismatch_preserves_handle (ι : Type) [DecidableEq ι]
    (El : ι → Type) (T : ι) (h : DynOwnRef ι El) :
    (h.tyId ≠ T → h.downcast T = Except.error h)
    ∧ (h.tyId = T →
        ∃ r : COwnRef ι El T, h.downcast T = Except.ok r ∧ r.addr = h.addr) := by
  constructor
  · intro hne
    unfold DynOwnRef.downcast
    rw [dif_neg hne]
  · intro he
    refine ⟨{ addr := h.addr, value := he ▸ h.value }, ?_, rfl⟩
    unfold DynOwnRef.downcast
    rw [dif_pos he]

/-- Claim C4, witness: the erased handle holding a string, downcast to the
numeric type, is returned unchanged in the Err variant; downcast to the
string type it yields the Ok variant at the same address 64. -/
theorem downcast_mismatch_preserves_handle_witness :
    anyHandleString.downcast RTy.rI32 = Except.error anyHandleString
    ∧ ∃ r : COwnRef RTy RTy.El RTy.rString,
        anyHandleString.downcast RTy.rString = Except.ok r ∧ r.addr = 64 := by
  refine
    ⟨(downcast_mismatch_preserves_handle RTy RTy.El RTy.rI32
        anyHandleString).1 (by decide), ?_⟩
  obtain ⟨r, hr, ha⟩ :=
    (downcast_mismatch_preserves_handle RTy RTy.El RTy.rString
      anyHandleString).2 rfl
  exact ⟨r, hr, ha⟩

/-- Claim C5: widening a concrete handle to the erased dyn Any interface
(into_raw, unsized pointer coercion, from_raw) and then downcasting back to
the original type succeeds and returns exactly the original handle: same
address, and the held value is the original one (extraction yields it). -/
theorem downcast_roundtrip (ι : Type) [DecidableEq ι] (El : ι → Type)
    (t : ι) (h : COwnRef ι El t) :
    (h.unsizeAny).downcast t = Except.ok h := by
  unfold COwnRef.unsizeAny DynOwnRef.downcast
  rw [dif_pos rfl]

/-- Claim C6: invoking a closure through the erased handle dispatch path —
whether through the canonical tuple-taking call_ownref or through the
arity-specialized entries for arities 0, 1, 2 and the arity bound 11 —
returns the same value and produces the same side-effect trace as calling
the concrete closure directly; the closure (captures included) is consumed
exactly once, the disarmed handle contributing no capture-destructor
events of its own. -/
theorem fn_own_dispatch_equivalence
    (Args Ret : Type) (f : Closure Args Ret) (args : Args)
    (R0 : Type) (f0 : Closure Unit R0)
    (A R1 : Type) (f1 : Closure A R1) (a : A)
    (B C R2 : Type) (f2 : Closure (B × C) R2) (b : B) (c : C)
    (T1 T2 T3 T4 T5 T6 T7 T8 T9 T10 T11 R11 : Type)
    (f11 : Closure (T1 × T2 × T3 × T4 × T5 × T6 × T7 × T8 × T9 × T10 × T11) R11)
    (x1 : T1) (x2 : T2) (x3 : T3) (x4 : T4) (x5 : T5) (x6 : T6) (x7 : T7)
    (x8 : T8) (x9 : T9) (x10 : T10) (x11 : T11) :
    FnHandle.call_ownref { armed := true, f := f } args = f.call_ownref args
    ∧ FnHandle.call_ownref_0 { armed := true, f := f0 } = f0.call_ownref_0
    ∧ FnHandle.call_ownref_1 { armed := true, f := f1 } a = f1.call_ownref_1 a
    ∧ FnHandle.call_ownref_2 { armed := true, f := f2 } b c
        = f2.call_ownref_2 b c
    ∧ FnHandle.call_ownref_11 { armed := true, f := f11 }
          x1 x2 x3 x4 x5 x6 x7 x8 x9 x10 x11
        = f11.call_ownref_11 x1 x2 x3 x4 x5 x6 x7 x8 x9 x10 x11 := by
  refine ⟨?_, ?_, ?_, ?_, ?_⟩ <;>
    simp [FnHandle.call_ownref, Closure.call_ownref, FnHandle.dropGlue,
      FnHandle.call_ownref_0, FnHandle.call_ownref_1, FnHandle.call_ownref_2,
      FnHandle.call_ownref_11, Closure.call_ownref_0, Closure.call_ownref_1,
      Closure.call_ownref_2, Closure.call_ownref_11]

/-- Claim C7: filling a slot with v1, fully consuming the handle (either by
dropping it or by extracting the value and dropping that separately), then
filling the same slot with v2 and consuming the second handle, runs the
destructor of v1 exactly once at the first consumption and the destructor of
v2 exactly once at the second — the second consumption never re-runs the
destructor of v1. -/
theorem slot_reuse (α : Type) (v1 v2 : α) :
    slotReuseDropDrop v1 v2 = ([v1], [v2])
    ∧ slotReuseExtractDrop v1 v2 = ([v1], [v2]) :=
  ⟨rfl, rfl⟩

/-- Claim C8: OwnRef.from_raw fails fast on the drop-mode parameter: for
every pointer, an instantiation whose TypeId is neither that of
DropFlags.Yes nor that of DropFlags.No panics (none), while the two
legitimate instantiations return the handle around the unchanged pointer
without panicking. -/
theorem from_raw_drop_mode_check (dTid ptr : Nat) :
    (dTid ≠ tidDropFlagsYes ∧ dTid ≠ tidDropFlagsNo →
      OwnRef.from_raw dTid ptr = none)
    ∧ (dTid = tidDropFlagsYes ∨ dTid = tidDropFlagsNo →
      OwnRef.from_raw dTid ptr = some ptr) := by
  constructor
  · rintro ⟨h1, h2⟩
    unfold OwnRef.from_raw
    rw [if_neg h1, if_neg h2]
  · rintro (h | h) <;> subst h <;>
      simp [OwnRef.from_raw, tidDropFlagsYes, tidDropFlagsNo]

/-- Claim C8, witness: TypeId 5 (not a DropFlags type) panics, while the
TypeIds of DropFlags.Yes and DropFlags.No both return the handle around
pointer 100. -/
theorem from_raw_drop_mode_check_witness :
    OwnRef.from_raw 5 100 = none
    ∧ OwnRef.from_raw 0 100 = some 100
    ∧ OwnRef.from_raw 1 100 = some 100 :=
  ⟨(from_raw_drop_mode_check 5 100).1 (by decide),
   (from_raw_drop_mode_check 0 100).2 (Or.inl rfl),
   (from_raw_drop_mode_check 1 100).2 (Or.inr rfl)⟩

/-- Claim C9, counterexample: after filling a pinned cell with the value 1
and leaking the handle, the present flag is still set, and invoking holding
again on that very state succeeds (storing 2 and destroying the stale 1) —
a re-fill does occur while the present flag is set, refuting the claim that
the fill operation is only reachable after normal destruction of the prior
handle. -/
theorem refill_while_flag_set_cex :
    (ManualOption.holding true pinSlot (1 : Int)).1.is_some = true
    ∧ pinRefillAfterLeak (1 : Int) 2
        = ({ is_some := true, value := some 2 }, [1]) :=
  ⟨rfl, rfl⟩

/-- Claim C9, amended: ManualOption.holding may be invoked while the present
flag is still set (after the prior handle was leaked); it is not restricted
to states reached through normal destruction of the prior handle. It first
resets the cell, running the destructor of the stale value exactly once,
before storing the new value with the flag set. -/
theorem refill_after_leak_resets_first (α : Type) (v1 v2 : α) :
    pinRefillAfterLeak v1 v2 = ({ is_some := true, value := some v2 }, [v1]) :=
  rfl

/-- Claim C10: ManualOption.holding first resets the cell to None — running
the destructor of a value still marked present exactly once — before writing
the new value and setting the flag: from a leaked-handle state the stale
value is destroyed exactly once at re-fill time, from a flag-clear state no
destructor runs, and in every case the cell afterwards has the flag set and
contains exactly the new value. -/
theorem holding_resets_then_stores (α : Type) (v0 v : α) (w : Option α) :
    ManualOption.holding true { is_some := true, value := some v0 } v
      = ({ is_some := true, value := some v }, [v0])
    ∧ ManualOption.holding true { is_some := false, value := w } v
      = ({ is_some := true, value := some v }, [])
    ∧ (∀ (nd : Bool) (s : ManualOption α),
        (ManualOption.holding nd s v).1 = { is_some := true, value := some v }) := by
  refine ⟨rfl, rfl, ?_⟩
  intro nd s
  rfl

end OwnRefModel
